import Mathlib

/-!
Shallow embedding of `src/app.py` (Venture Studio Competitor Analysis, a
Streamlit page).  The app's pure logic — secrets lookup in
`AIProvider.__init__`, the bracket-trimming JSON recovery, the URL-cleaning
step, list truncation, and CSV-row building — is translated directly.
External effects (the two LLM chat calls and the DuckDuckGo search) are
passed in as oracle parameters of type `Except PyErr _`, and `json.loads`
as a parameter `String → Option Json` (`none` = `JSONDecodeError`), so that
the control flow around them (what is inside each `try`, what each `except`
returns) can be proved about.
-/

namespace CompetitorAnalysis

/-- Python exceptions, at the granularity the app's control flow can
distinguish: `KeyError` carries its key (raised by `st.secrets[...]` and by
`comp['name']`-style dict lookups); the rest are only caught-or-propagated. -/
inductive PyErr where
  | keyError (k : String)
  | typeError
  | attributeError
  | valueError (msg : String)
  | exception (msg : String)
  deriving DecidableEq, Repr

/-- Python values produced by `json.loads`, plus enough structure for the
dicts the app builds and mutates. -/
inductive Json where
  | null
  | bool (b : Bool)
  | num (n : Int)
  | str (s : String)
  | arr (xs : List Json)
  | obj (kvs : List (String × Json))
  deriving Repr

/-- The `[api_settings]` table of `st.secrets` (`ai_provider` entry optional). -/
structure ApiSettings where
  ai_provider : Option String
  deriving DecidableEq, Repr

/-- The `[api_keys]` table of `st.secrets`; either key may be absent. -/
structure ApiKeys where
  openai_api_key : Option String
  anthropic_api_key : Option String
  deriving DecidableEq, Repr

/-- `st.secrets`: both tables may be absent entirely (then `st.secrets["api_keys"]`
raises `KeyError`, while `.get("api_settings", {})` does not). -/
structure Secrets where
  api_settings : Option ApiSettings
  api_keys : Option ApiKeys
  deriving DecidableEq, Repr

/-- The constructed provider object: `self.provider` and `self.model`. -/
structure AIProvider where
  provider : String
  model : String
  deriving DecidableEq, Repr

/-- `AIProvider.__init__` (src/app.py lines 260-268): reads
`st.secrets.get("api_settings", {}).get("ai_provider", "openai")`, then
indexes `st.secrets["api_keys"][...]`, which raises `KeyError` when the
table or the key is missing.  There is no try/except here. -/
def AIProvider.init (s : Secrets) : Except PyErr AIProvider :=
  let provider :=
    match s.api_settings with
    | none => "openai"
    | some cfg => cfg.ai_provider.getD "openai"
  if provider = "openai" then
    match s.api_keys with
    | none => .error (.keyError "api_keys")
    | some ks =>
      match ks.openai_api_key with
      | none => .error (.keyError "openai_api_key")
      | some _ => .ok ⟨provider, "gpt-4-turbo-preview"⟩
  else
    match s.api_keys with
    | none => .error (.keyError "api_keys")
    | some ks =>
      match ks.anthropic_api_key with
      | none => .error (.keyError "anthropic_api_key")
      | some _ => .ok ⟨provider, "claude-3-opus-20240229"⟩

/-! ### Python string primitives used by the app -/

/-- Leading-segment test on character lists (structural recursion on the
first argument, so that it reduces as soon as the candidate segment is
consumed). -/
def strLeads : List Char → List Char → Bool
  | [], _ => true
  | _ :: _, [] => false
  | a :: pre, b :: s => a == b && strLeads pre s

/-- `str.startswith`, via character lists. -/
def pyStartsWith (s pre : String) : Bool :=
  strLeads pre.toList s.toList

/-- `str.endswith`, via character lists. -/
def pyEndsWith (s suf : String) : Bool :=
  strLeads suf.toList.reverse s.toList.reverse

/-- `str.strip()`: drop leading and trailing whitespace. -/
def pyStrip (s : String) : String :=
  String.mk (((s.toList.dropWhile Char.isWhitespace).reverse.dropWhile
    Char.isWhitespace).reverse)

/-- `str.find(c)`: index of the first occurrence, `-1` when absent. -/
def pyFind (s : String) (c : Char) : Int :=
  match s.toList.findIdx? (· = c) with
  | some i => (i : Int)
  | none => -1

/-- `str.rfind(c)`: index of the last occurrence, `-1` when absent. -/
def pyRFind (s : String) (c : Char) : Int :=
  match s.toList.reverse.findIdx? (· = c) with
  | some i => ((s.toList.length - 1 - i : Nat) : Int)
  | none => -1

/-- Python slice `s[i:]`, including the negative-index convention
(`s[-1:]` is the last character, an out-of-range negative start clamps to 0). -/
def pySliceFrom (s : String) (i : Int) : String :=
  if 0 ≤ i then String.mk (s.toList.drop i.toNat)
  else String.mk (s.toList.drop (s.toList.length - (-i).toNat))

/-- Python slice `s[:n]` for a non-negative bound. -/
def pySliceTo (s : String) (n : Nat) : String :=
  String.mk (s.toList.take n)

/-- The response-cleaning step shared by `identify_industries`
(lines 310-314) and `find_competitors` (lines 355-359):
```
cleaned = response.strip()
if not cleaned.startswith('['): cleaned = cleaned[cleaned.find('['):]
if not cleaned.endswith(']'): cleaned = cleaned[:cleaned.rfind(']')+1]
```
(`find` returning `-1` makes the first slice keep only the last character;
`rfind` returning `-1` makes the second slice empty.) -/
def trimBrackets (response : String) : String :=
  let c := pyStrip response
  let c := if pyStartsWith c "[" then c else pySliceFrom c (pyFind c '[')
  if pyEndsWith c "]" then c else pySliceTo c ((pyRFind c ']') + 1).toNat

/-! ### `identify_industries` -/

/-- The fallback list returned by `identify_industries` on any exception. -/
def defaultIndustries : Json :=
  .arr [.str "Technology Solutions", .str "Software Services",
        .str "Digital Innovation"]

/-- Python truthiness of a value, as used by `if comp.get('website'):`. -/
def pyTruthy : Json → Bool
  | .null => false
  | .bool b => b
  | .num n => n != 0
  | .str s => s ≠ ""
  | .arr xs => !xs.isEmpty
  | .obj kvs => !kvs.isEmpty

/-- Python `x[:3]` on a dynamically typed value: slices lists and strings,
raises `TypeError` on anything else. -/
def pySlice3 : Json → Except PyErr Json
  | .arr xs => .ok (.arr (xs.take 3))
  | .str s => .ok (.str (pySliceTo s 3))
  | _ => .error .typeError

/-- `identify_industries(pitch)` (lines 297-320).  `AIProvider()` is built
BEFORE the `try`, so an init exception propagates.  Inside the `try`:
the LLM call (oracle `respond`), bracket trimming, `json.loads` (parameter
`loads`, `none` = raise) and the `[:3]` slice; any exception there is caught
and the default triad returned. -/
def identify_industries (secrets : Secrets) (respond : Except PyErr String)
    (loads : String → Option Json) : Except PyErr Json :=
  match AIProvider.init secrets with
  | .error e => .error e
  | .ok _ =>
    .ok (match respond with
      | .error _ => defaultIndustries
      | .ok response =>
        match loads (trimBrackets response) with
        | none => defaultIndustries
        | some j =>
          match pySlice3 j with
          | .error _ => defaultIndustries
          | .ok v => v)

/-! ### `urllib.parse.urlparse` (the fields the app reads) -/

/-- The split result of `urlparse`: the app reads only `netloc` and `path`,
but `query` and `fragment` must be split off faithfully for those two to be
right. -/
structure UrlParts where
  scheme : String
  netloc : String
  path : String
  query : String
  fragment : String
  deriving DecidableEq, Repr

/-- Characters allowed in a URL scheme after the initial letter. -/
def schemeChar (c : Char) : Bool :=
  c.isAlpha || c.isDigit || c = '+' || c = '-' || c = '.'

/-- Scheme splitting of `urlsplit`: a leading run of scheme characters
(starting with a letter) up to the first `:` is the scheme, lowercased;
otherwise the input is untouched. -/
def splitScheme (cs : List Char) : List Char × List Char :=
  let pre := cs.takeWhile (· ≠ ':')
  let post := cs.dropWhile (· ≠ ':')
  match post with
  | [] => ([], cs)
  | _ :: after =>
    match pre with
    | [] => ([], cs)
    | c0 :: _ =>
      if c0.isAlpha && pre.all schemeChar then (pre.map Char.toLower, after)
      else ([], cs)

/-- A character that does not end the netloc (`'/?#'` are the delimiters). -/
def netChar (c : Char) : Bool :=
  c ≠ '/' && c ≠ '?' && c ≠ '#'

/-- Netloc splitting of `urlsplit`: after a leading `//`, the netloc runs to
the first `/`, `?` or `#`. -/
def splitNetloc (cs : List Char) : List Char × List Char :=
  match cs with
  | '/' :: '/' :: rest => (rest.takeWhile netChar, rest.dropWhile netChar)
  | _ => ([], cs)

/-- `str.split(sep, 1)` restricted to what `urlsplit` needs: the part before
the first `sep` and the part after it (everything, when `sep` is absent). -/
def splitOnce (sep : Char) (cs : List Char) : List Char × List Char :=
  match cs.dropWhile (· ≠ sep) with
  | [] => (cs, [])
  | _ :: after => (cs.takeWhile (· ≠ sep), after)

/-- A WHATWG C0-control or space character (code points 0 to 32), stripped
from the front of the URL by `urlsplit`. -/
def c0ControlOrSpace (c : Char) : Bool :=
  c.toNat ≤ 32

/-- A character `urlsplit` keeps: ASCII tab, CR and LF are removed from the
whole URL before parsing. -/
def keepChar (c : Char) : Bool :=
  !(c = '\t' || c = '\r' || c = '\n')

/-- Membership test on character lists (structural, reducing on the list). -/
def hasChar : List Char → Char → Bool
  | [], _ => false
  | c :: cs, a => c == a || hasChar cs a

/-- `urllib.parse.urlparse`, restricted to scheme/netloc/path/query/fragment
splitting over the fields the app reads (`netloc` and `path`; the `params`
split only shortens a path's last segment at a `;`, which none of our
statements touch).  Modelled after CPython's `urlsplit`: the URL is first
stripped of leading C0-control/space characters and of every ASCII tab, CR
and LF; after the netloc split, an unmatched `[`/`]` in the netloc raises
`ValueError("Invalid IPv6 URL")`.  The bracketed-host content validation of
CPython ≥ 3.11 and the non-ASCII NFKC netloc check are not modelled — the
theorems below stay inside bracket-free, ASCII netlocs, where every CPython
3.x agrees with this model. -/
def urlparse (url : String) : Except PyErr UrlParts :=
  let (scheme, rest) :=
    splitScheme ((url.toList.dropWhile c0ControlOrSpace).filter keepChar)
  let (netloc, rest) := splitNetloc rest
  if (hasChar netloc '[' && !hasChar netloc ']') ||
      (hasChar netloc ']' && !hasChar netloc '[') then
    .error (.valueError "Invalid IPv6 URL")
  else
    let (rest, fragment) := splitOnce '#' rest
    let (path, query) := splitOnce '?' rest
    .ok ⟨String.mk scheme, String.mk netloc, String.mk path,
      String.mk query, String.mk fragment⟩

/-- The URL-cleaning step of `find_competitors` (lines 366-370) applied to
one website string (a `ValueError` out of `urlparse` propagates to the
enclosing `try` of `find_competitors`):
```
parsed_url = urlparse(comp['website'])
domain = parsed_url.netloc if parsed_url.netloc else parsed_url.path
if not domain.startswith('www.'): domain = f"www.{domain}"
comp['website'] = f"https://{domain}"
``` -/
def cleanWebsite (w : String) : Except PyErr String :=
  match urlparse w with
  | .error e => .error e
  | .ok p =>
    let domain := if p.netloc = "" then p.path else p.netloc
    let domain :=
      if pyStartsWith domain "www." then domain else "www." ++ domain
    .ok ("https://" ++ domain)

/-- Replace the value under a key in a Python dict (in-place assignment;
insertion position is kept). -/
def setKey (kvs : List (String × Json)) (k : String) (v : Json) :
    List (String × Json) :=
  kvs.map (fun kv => if kv.1 = k then (kv.1, v) else kv)

/-- One iteration of the cleaning loop body on `comp`: `comp.get('website')`
(an `AttributeError` when `comp` is not a dict), the truthiness test, then
`urlparse`/rewrite — `urlparse` on a non-string raises. -/
def cleanComp : Json → Except PyErr Json
  | .obj kvs =>
    match kvs.lookup "website" with
    | none => .ok (.obj kvs)
    | some v =>
      if pyTruthy v then
        match v with
        | .str w =>
          match cleanWebsite w with
          | .error e => .error e
          | .ok cw => .ok (.obj (setKey kvs "website" (.str cw)))
        | _ => .error .typeError
      else .ok (.obj kvs)
  | _ => .error .attributeError

/-- `for comp in competitors: ...` over the parsed value: lists iterate their
elements; iterating a non-empty string or dict feeds strings to `comp.get`
(`AttributeError`); non-iterables raise `TypeError`. -/
def cleanUrls : Json → Except PyErr Json
  | .arr xs => (xs.mapM cleanComp).map .arr
  | .str s => if s = "" then .ok (.str "") else .error .attributeError
  | .obj kvs => if kvs.isEmpty then .ok (.obj []) else .error .attributeError
  | _ => .error .typeError

/-- `find_competitors(industry, pitch)` (lines 322-377).  `AIProvider()` is
built BEFORE the `try` (line 324), so an init exception propagates.  The
`try` covers: the search-query LLM call (`queryResp`), the DuckDuckGo search
(`search`), the analysis LLM call (`analysisResp`), bracket trimming,
`json.loads` (`loads`), the URL-cleaning loop and the final `[:3]`; any
exception there is logged, shown via `st.error`, and `[]` returned.  The
result pairs the returned value with whether `st.error` was called. -/
def find_competitors (secrets : Secrets) (queryResp : Except PyErr String)
    (search : Except PyErr Unit) (analysisResp : Except PyErr String)
    (loads : String → Option Json) : Except PyErr (Json × Bool) :=
  match AIProvider.init secrets with
  | .error e => .error e
  | .ok _ =>
    .ok (match queryResp with
      | .error _ => (.arr [], true)
      | .ok _ =>
        match search with
        | .error _ => (.arr [], true)
        | .ok _ =>
          match analysisResp with
          | .error _ => (.arr [], true)
          | .ok response =>
            match loads (trimBrackets response) with
            | none => (.arr [], true)
            | some competitors =>
              match cleanUrls competitors with
              | .error _ => (.arr [], true)
              | .ok cleaned =>
                match pySlice3 cleaned with
                | .error _ => (.arr [], true)
                | .ok v => (v, false))

/-! ### `export_results` -/

/-- The fixed CSV header row (line 386). -/
def csvHeaders : List Json :=
  [.str "Industry", .str "Competitor", .str "Website", .str "Description",
   .str "Key Differentiator"]

/-- Python `comp[k]`: raises `KeyError(k)` when the key is absent,
`TypeError` when `comp` is not a dict. -/
def dictGetItem (j : Json) (k : String) : Except PyErr Json :=
  match j with
  | .obj kvs =>
    match kvs.lookup k with
    | some v => .ok v
    | none => .error (.keyError k)
  | _ => .error .typeError

/-- One CSV data row (lines 390-396): `[industry, comp['name'],
comp['website'], comp['description'], comp['differentiator']]`. -/
def compRow (industry : String) (comp : Json) : Except PyErr (List Json) := do
  let name ← dictGetItem comp "name"
  let website ← dictGetItem comp "website"
  let description ← dictGetItem comp "description"
  let differentiator ← dictGetItem comp "differentiator"
  return [.str industry, name, website, description, differentiator]

/-- The nested loop building `csv_data` (lines 388-396), in the session
mapping's iteration order; the first raising lookup aborts the build. -/
def buildCsvData (m : List (String × List Json)) :
    Except PyErr (List (List Json)) := do
  let rowss ← m.mapM (fun p => p.2.mapM (fun c => compRow p.1 c))
  return rowss.flatten

/-- `export_results(startup_name)` (lines 379-410): an empty session mapping
only warns (`none`); otherwise the CSV is the header row followed by the
data rows (a `KeyError` while building propagates — there is no try here). -/
def export_results (m : List (String × List Json)) :
    Option (Except PyErr (List (List Json))) :=
  if m.isEmpty then none
  else some (do
    let rows ← buildCsvData m
    return csvHeaders :: rows)

/-! ### Sentiment bucketing (spec-modelled) -/

/-- Modelled from the spec: no sentiment code exists in `src/app.py`; the
spec (§4.3, §4.4, §8) describes, for a subset of the repository's variants,
an emoji+label rendering "mapped from five fixed score bands" over the
sentiment scalar in [-1, 1], with 0.6→"Very Positive", 0.1→"Positive",
0.0→"Neutral", -0.3→"Negative", -0.7→"Very Negative".  Scores are modelled
as rationals; the band edges 0.5 and 0.05 are the usual lexicon-analyzer
thresholds consistent with the five sample points. -/
def sentimentLabel (score : ℚ) : String :=
  if 1/2 ≤ score then "Very Positive"
  else if 1/20 ≤ score then "Positive"
  else if -1/20 < score then "Neutral"
  else if -1/2 < score then "Negative"
  else "Very Negative"

/-! ### Values and helper functions used by the theorems -/

/-- A secrets store with the default provider and an OpenAI key present. -/
def goodSecrets : Secrets := ⟨none, some ⟨some "sk-test", none⟩⟩

/-- Total key lookup on a JSON value (`None` when absent or not a dict);
used to phrase the expected CSV rows. -/
def jLookup : Json → String → Option Json
  | .obj kvs, k => kvs.lookup k
  | _, _ => none

/-- The competitor dict carries the four keys `export_results` reads. -/
def hasCompKeys (c : Json) : Prop :=
  (jLookup c "name").isSome = true ∧ (jLookup c "website").isSome = true ∧
  (jLookup c "description").isSome = true ∧
  (jLookup c "differentiator").isSome = true

instance (c : Json) : Decidable (hasCompKeys c) := by
  unfold hasCompKeys; infer_instance

/-- The expected CSV data row for one competitor under its industry. -/
def rowOf (industry : String) (c : Json) : List Json :=
  [.str industry, (jLookup c "name").getD .null,
   (jLookup c "website").getD .null, (jLookup c "description").getD .null,
   (jLookup c "differentiator").getD .null]

/-- A one-industry, one-competitor session mapping with all four keys. -/
def sampleSession : List (String × List Json) :=
  [("Tech", [.obj [("name", .str "Acme"),
    ("website", .str "https://www.acme.com"), ("description", .str "desc"),
    ("differentiator", .str "diff")]])]

/-! ### Shared helper lemmas -/

/-- `toList` distributes over string append. -/
theorem toList_append (a b : String) : (a ++ b).toList = a.toList ++ b.toList := by
  cases a; cases b; rfl

/-- Prepending `www.` makes a string start with `www.`. -/
theorem pyStartsWith_www_prepend (d : String) :
    pyStartsWith ("www." ++ d) "www." = true := by
  obtain ⟨l⟩ := d; rfl

/-- A string starting with `www.`, prefixed by `https://`, starts with
`https://www.`. -/
theorem startsWith_https_www (d : String) (hd : pyStartsWith d "www." = true) :
    pyStartsWith ("https://" ++ d) "https://www." = true := by
  obtain ⟨l⟩ := d; exact hd

/-- A list all of whose elements satisfy `p` is its own `takeWhile`. -/
theorem takeWhile_all {α : Type} {p : α → Bool} {l : List α}
    (h : ∀ c ∈ l, p c = true) : l.takeWhile p = l :=
  List.takeWhile_eq_self_iff.mpr h

/-- A list all of whose elements satisfy `p` has empty `dropWhile`. -/
theorem dropWhile_all {α : Type} {p : α → Bool} {l : List α}
    (h : ∀ c ∈ l, p c = true) : l.dropWhile p = [] :=
  List.dropWhile_eq_nil_iff.mpr h

/-- A list all of whose elements satisfy `p` is unchanged by `filter`. -/
theorem filter_all {α : Type} {p : α → Bool} {l : List α}
    (h : ∀ c ∈ l, p c = true) : l.filter p = l :=
  List.filter_eq_self.mpr h

/-- `hasChar` is false when no element equals the character. -/
theorem hasChar_eq_false {l : List Char} {a : Char}
    (h : ∀ c ∈ l, ¬(c = a)) : hasChar l a = false := by
  induction l with
  | nil => rfl
  | cons x xs ih =>
    have hx := h x (by simp)
    have hxs := ih (fun c hc => h c (by simp [hc]))
    simp [hasChar, hxs, hx]

/-- Splitting a URL of the form `https://www.<domain>` whose domain avoids
the three netloc delimiters, both brackets, and the removed tab/newline
characters: parsing succeeds and everything lands in the netloc. -/
theorem urlparse_https_www (l : List Char)
    (hfilter : l.filter keepChar = l)
    (htake : l.takeWhile netChar = l) (hdrop : l.dropWhile netChar = [])
    (hbl : hasChar l '[' = false) (hbr : hasChar l ']' = false) :
    urlparse ("https://www." ++ String.mk l) =
      .ok ⟨"https", String.mk ('w' :: 'w' :: 'w' :: '.' :: l), "", "", ""⟩ := by
  unfold urlparse
  rw [show splitScheme ((("https://www." ++ String.mk l).toList.dropWhile
        c0ControlOrSpace).filter keepChar) =
      (['h', 't', 't', 'p', 's'],
        '/' :: '/' :: 'w' :: 'w' :: 'w' :: '.' :: (l.filter keepChar))
      from rfl]
  dsimp only
  rw [hfilter]
  rw [show splitNetloc ('/' :: '/' :: 'w' :: 'w' :: 'w' :: '.' :: l) =
      ('w' :: 'w' :: 'w' :: '.' :: (l.takeWhile netChar), l.dropWhile netChar)
      from rfl]
  dsimp only
  rw [htake, hdrop]
  rw [show hasChar ('w' :: 'w' :: 'w' :: '.' :: l) '[' = hasChar l '['
      from rfl,
    show hasChar ('w' :: 'w' :: 'w' :: '.' :: l) ']' = hasChar l ']'
      from rfl,
    hbl, hbr]
  rfl

/-! ### C1 -/

/-- C1, counterexample.  The claim says a missing API key does not propagate
an uncaught exception out of `identify_industries` or `find_competitors`.
But `AIProvider()` is constructed before the `try` in both functions, so
with `st.secrets` lacking the `api_keys` table both calls raise `KeyError`. -/
theorem C1_counterexample :
    identify_industries ⟨none, none⟩ (.ok "[]") (fun _ => none) =
      .error (.keyError "api_keys") ∧
    find_competitors ⟨none, none⟩ (.ok "query") (.ok ()) (.ok "[]")
      (fun _ => none) = .error (.keyError "api_keys") := by
  exact ⟨rfl, rfl⟩

/-- C1, amended: failures inside the `try` blocks (LLM calls, search, JSON
parsing) are caught and converted to a user-visible fallback, but a missing
API credential raises inside `AIProvider.__init__`, which both
`identify_industries` and `find_competitors` run before their `try`, so
that exception propagates uncaught out of both functions. -/
theorem C1_amended (s : Secrets) :
    (∀ e, AIProvider.init s = .error e →
      ∀ o loads q w a, identify_industries s o loads = .error e ∧
        find_competitors s q w a loads = .error e) ∧
    (∀ p, AIProvider.init s = .ok p →
      ∀ o loads q w a, (∃ v, identify_industries s o loads = .ok v) ∧
        (∃ r, find_competitors s q w a loads = .ok r)) := by
  constructor
  · intro e he o loads q w a
    constructor
    · simp [identify_industries, he]
    · simp [find_competitors, he]
  · intro p hp o loads q w a
    constructor
    · simp only [identify_industries, hp]
      exact ⟨_, rfl⟩
    · simp only [find_competitors, hp]
      exact ⟨_, rfl⟩

/-- C1, witness for the amended theorem at concrete inputs. -/
theorem C1_amended_witness :
    identify_industries ⟨none, none⟩ (.ok "[]") (fun _ => none) =
      .error (.keyError "api_keys") ∧
    find_competitors ⟨none, none⟩ (.ok "query") (.ok ()) (.ok "[]")
      (fun _ => none) = .error (.keyError "api_keys") :=
  (C1_amended ⟨none, none⟩).1 (.keyError "api_keys") rfl (.ok "[]")
    (fun _ => none) (.ok "query") (.ok ()) (.ok "[]")

/-! ### C2 -/

/-- C2: whenever the provider constructs and the bracket-trimmed LLM
response fails to parse as JSON, `identify_industries` does not raise: it
returns the default triad
`["Technology Solutions", "Software Services", "Digital Innovation"]`. -/
theorem C2_malformed_falls_back (s : Secrets) (p : AIProvider) (resp : String)
    (loads : String → Option Json) (hinit : AIProvider.init s = .ok p)
    (hparse : loads (trimBrackets resp) = none) :
    identify_industries s (.ok resp) loads = .ok defaultIndustries := by
  simp [identify_industries, hinit, hparse]

/-- C2, witness: a response with no JSON array at all, under a parse
function that rejects everything. -/
theorem C2_witness :
    (AIProvider.init goodSecrets = .ok ⟨"openai", "gpt-4-turbo-preview"⟩ ∧
      (fun _ : String => (none : Option Json)) (trimBrackets "not json") =
        none) ∧
    identify_industries goodSecrets (.ok "not json") (fun _ => none) =
      .ok defaultIndustries :=
  ⟨⟨rfl, rfl⟩, C2_malformed_falls_back goodSecrets
    ⟨"openai", "gpt-4-turbo-preview"⟩ "not json" (fun _ => none) rfl rfl⟩

/-! ### C3 -/

/-- The string built by the www-prepending and `https://` concatenation
always starts with `https://www.`. -/
theorem cleaned_starts_www (d : String) :
    pyStartsWith ("https://" ++ (if pyStartsWith d "www." then d
      else "www." ++ d)) "https://www." = true := by
  by_cases h : pyStartsWith d "www." = true
  · rw [if_pos h]
    exact startsWith_https_www d h
  · rw [if_neg h]
    exact startsWith_https_www ("www." ++ d) (pyStartsWith_www_prepend d)

/-- C3, counterexample.  The claim says the cleaned website is always
`https://www.` followed by a bare domain with no path component.  For the
scheme-less input `example.com/about`, `urlparse` puts the whole string in
`path` (`netloc` is empty), and the cleaning step keeps the path: the
record's website becomes `https://www.example.com/about`, whose part after
`https://www.` still contains a `/`. -/
theorem C3_counterexample :
    cleanComp (.obj [("name", .str "Acme"),
        ("website", .str "example.com/about")]) =
      .ok (.obj [("name", .str "Acme"),
        ("website", .str "https://www.example.com/about")]) ∧
    (("https://www.example.com/about").toList.drop 12).contains '/' = true :=
  ⟨rfl, rfl⟩

/-- C3, amended: whenever the cleaning step completes (`urlparse` can raise
`ValueError`, which the enclosing `try` of `find_competitors` catches), the
rewritten website starts with `https://www.` (the `www.` is prepended
unless already present), but what follows is the URL's netloc when
`urlparse` finds one and its path otherwise, so a scheme-less input keeps
its path component in the result. -/
theorem C3_amended (w s : String) (h : cleanWebsite w = .ok s) :
    pyStartsWith s "https://www." = true := by
  unfold cleanWebsite at h
  rcases hu : urlparse w with e | p
  · rw [hu] at h
    exact absurd h (by simp)
  · rw [hu] at h
    simp only [Except.ok.injEq] at h
    subst h
    exact cleaned_starts_www _

/-- C3, witness for the amended theorem at the counterexample's input. -/
theorem C3_witness :
    cleanWebsite "example.com/about" = .ok "https://www.example.com/about" ∧
    pyStartsWith "https://www.example.com/about" "https://www." = true :=
  ⟨rfl, C3_amended "example.com/about" "https://www.example.com/about" rfl⟩

/-! ### C10 -/

/-- C10, counterexample.  The claim asks only that the domain contain no
slash, but a `?` in it already breaks idempotence: cleaning
`https://www.a?b` cuts the netloc at the `?` and drops the query, giving
`https://www.a` ≠ `https://www.a?b`. -/
theorem C10_counterexample :
    ¬('/' ∈ "a?b".toList) ∧
    cleanWebsite ("https://www." ++ "a?b") = .ok "https://www.a" ∧
    ("https://www.a" : String) ≠ "https://www." ++ "a?b" :=
  ⟨by decide, rfl, by decide⟩

/-- C10, amended: the cleaning step is idempotent on strings of the form
`https://www.<domain>` when `<domain>` is ASCII and contains none of the
netloc delimiters `/`, `?`, `#`, neither bracket `[`, `]` (an unmatched one
raises `ValueError`), and none of the tab/CR/LF characters `urlsplit`
removes.  A `?` or `#` in the domain is cut off with everything after it
(the counterexample); the remaining exclusions keep the statement inside
the region where every CPython 3.x parses the URL identically. -/
theorem C10_amended (d : String)
    (h : ∀ c ∈ d.toList, c.toNat < 128 ∧ c ≠ '/' ∧ c ≠ '?' ∧ c ≠ '#' ∧
      c ≠ '[' ∧ c ≠ ']' ∧ c ≠ '\t' ∧ c ≠ '\r' ∧ c ≠ '\n') :
    cleanWebsite ("https://www." ++ d) = .ok ("https://www." ++ d) := by
  obtain ⟨l⟩ := d
  have hq : ∀ c ∈ l, netChar c = true := by
    intro c hc
    obtain ⟨-, h1, h2, h3, -⟩ := h c hc
    simp [netChar, h1, h2, h3]
  have hk : ∀ c ∈ l, keepChar c = true := by
    intro c hc
    obtain ⟨-, -, -, -, -, -, h6, h7, h8⟩ := h c hc
    simp [keepChar, h6, h7, h8]
  have hbl : hasChar l '[' = false :=
    hasChar_eq_false (fun c hc => (h c hc).2.2.2.2.1)
  have hbr : hasChar l ']' = false :=
    hasChar_eq_false (fun c hc => (h c hc).2.2.2.2.2.1)
  have hparse := urlparse_https_www l (filter_all hk) (takeWhile_all hq)
    (dropWhile_all hq) hbl hbr
  unfold cleanWebsite
  rw [hparse]
  rfl

/-- C10, witness for the amended theorem at `d = "example.com"`. -/
theorem C10_witness :
    (∀ c ∈ "example.com".toList, c.toNat < 128 ∧ c ≠ '/' ∧ c ≠ '?' ∧
      c ≠ '#' ∧ c ≠ '[' ∧ c ≠ ']' ∧ c ≠ '\t' ∧ c ≠ '\r' ∧ c ≠ '\n') ∧
    cleanWebsite ("https://www." ++ "example.com") =
      .ok ("https://www." ++ "example.com") :=
  ⟨by decide, C10_amended "example.com" (by decide)⟩

/-! ### C5 -/

/-- A successful `[:3]` slice that yields a list yields at most 3 elements. -/
theorem pySlice3_arr_length {j v : Json} (h : pySlice3 j = .ok v) :
    ∀ xs, v = .arr xs → xs.length ≤ 3 := by
  cases j with
  | arr ys =>
    simp only [pySlice3, Except.ok.injEq] at h
    subst h
    intro xs hxs
    cases hxs
    rw [List.length_take]
    exact min_le_left _ _
  | str t =>
    simp only [pySlice3, Except.ok.injEq] at h
    subst h
    intro xs hxs
    exact absurd hxs (by simp)
  | null => simp [pySlice3] at h
  | bool b => simp [pySlice3] at h
  | num n => simp [pySlice3] at h
  | obj kvs => simp [pySlice3] at h

/-- When the provider constructs, `identify_industries` returns either the
default triad or a value produced by the `[:3]` slice. -/
theorem identify_result_cases {s : Secrets} {p : AIProvider}
    (hI : AIProvider.init s = .ok p) (o : Except PyErr String)
    (loads : String → Option Json) :
    identify_industries s o loads = .ok defaultIndustries ∨
    ∃ j v, pySlice3 j = .ok v ∧ identify_industries s o loads = .ok v := by
  rcases o with e | resp
  · left; simp [identify_industries, hI]
  rcases hl : loads (trimBrackets resp) with _ | j
  · left; simp [identify_industries, hI, hl]
  rcases hs : pySlice3 j with e | v
  · left; simp [identify_industries, hI, hl, hs]
  · right; exact ⟨j, v, hs, by simp [identify_industries, hI, hl, hs]⟩

/-- When the provider constructs, `find_competitors` returns either the
caught-error fallback `([], error shown)` or a sliced value with no error. -/
theorem find_result_cases {s : Secrets} {p : AIProvider}
    (hI : AIProvider.init s = .ok p) (q : Except PyErr String)
    (w : Except PyErr Unit) (a : Except PyErr String)
    (loads : String → Option Json) :
    find_competitors s q w a loads = .ok (.arr [], true) ∨
    ∃ j v, pySlice3 j = .ok v ∧
      find_competitors s q w a loads = .ok (v, false) := by
  rcases q with e | q'
  · left; simp [find_competitors, hI]
  rcases w with e | ⟨⟩
  · left; simp [find_competitors, hI]
  rcases a with e | resp
  · left; simp [find_competitors, hI]
  rcases hl : loads (trimBrackets resp) with _ | j
  · left; simp [find_competitors, hI, hl]
  rcases hc : cleanUrls j with e | cleaned
  · left; simp [find_competitors, hI, hl, hc]
  rcases hs : pySlice3 cleaned with e | v
  · left; simp [find_competitors, hI, hl, hc, hs]
  · right; exact ⟨cleaned, v, hs, by simp [find_competitors, hI, hl, hc, hs]⟩

/-- C5: whenever `identify_industries` returns a list it has at most 3
elements (a longer parsed array is truncated by `industries[:3]`, the
default triad has exactly 3), and whenever `find_competitors` returns a
list it has at most 3 elements (`competitors[:3]`, or the empty fallback). -/
theorem C5_at_most_three (s : Secrets) (o : Except PyErr String)
    (loads : String → Option Json) :
    (∀ xs, identify_industries s o loads = .ok (.arr xs) → xs.length ≤ 3) ∧
    (∀ q w a r, find_competitors s q w a loads = .ok r →
      ∀ ys, r.1 = .arr ys → ys.length ≤ 3) := by
  constructor
  · intro xs h
    rcases hI : AIProvider.init s with e | p
    · rw [identify_industries.eq_def, hI] at h
      exact absurd h (by simp)
    · rcases identify_result_cases hI o loads with hcase | ⟨j, v, hs, hcase⟩
      · rw [h] at hcase
        have hd : defaultIndustries = Json.arr xs := Except.ok.inj hcase.symm
        simp [defaultIndustries] at hd
        simp [← hd]
      · rw [h] at hcase
        exact pySlice3_arr_length hs xs (Except.ok.inj hcase.symm)
  · intro q w a r h ys hr
    rcases hI : AIProvider.init s with e | p
    · rw [find_competitors.eq_def, hI] at h
      exact absurd h (by simp)
    · rcases find_result_cases hI q w a loads with hcase | ⟨j, v, hs, hcase⟩
      · rw [h] at hcase
        have hrr : r = ((Json.arr [], true) : Json × Bool) :=
          (Except.ok.inj hcase.symm).symm
        rw [hrr] at hr
        simp at hr
        simp [hr]
      · rw [h] at hcase
        have hrr : r = ((v, false) : Json × Bool) :=
          (Except.ok.inj hcase.symm).symm
        rw [hrr] at hr
        exact pySlice3_arr_length hs ys hr

/-- C5, witness: a parsed 4-element array comes back truncated to 3, and
the theorem bounds that length at a concrete input. -/
theorem C5_witness :
    identify_industries goodSecrets (.ok "x")
      (fun _ => some (.arr [.null, .null, .null, .null])) =
      .ok (.arr [.null, .null, .null]) ∧
    ([Json.null, .null, .null] : List Json).length ≤ 3 :=
  ⟨rfl, (C5_at_most_three goodSecrets (.ok "x")
    (fun _ => some (.arr [.null, .null, .null, .null]))).1
    [.null, .null, .null] rfl⟩

/-! ### C8 -/

/-- C8: a response whose bracket-trimmed form parses as an array of fewer
than 3 elements comes back as exactly those elements — no padding to 3, no
check that the elements are strings (they are arbitrary JSON values). -/
theorem C8_short_array_kept (s : Secrets) (p : AIProvider) (resp : String)
    (loads : String → Option Json) (xs : List Json)
    (hinit : AIProvider.init s = .ok p)
    (hparse : loads (trimBrackets resp) = some (.arr xs))
    (hlen : xs.length < 3) :
    identify_industries s (.ok resp) loads = .ok (.arr xs) := by
  simp [identify_industries, hinit, hparse, pySlice3,
    List.take_of_length_le (le_of_lt hlen)]

/-- C8, witness: a 1-element array of a non-string element is returned
as-is. -/
theorem C8_witness :
    (AIProvider.init goodSecrets = .ok ⟨"openai", "gpt-4-turbo-preview"⟩ ∧
      (fun t => if t = "[1]" then some (Json.arr [.num 1]) else none)
        (trimBrackets "[1]") = some (.arr [.num 1]) ∧
      ([Json.num 1] : List Json).length < 3) ∧
    identify_industries goodSecrets (.ok "[1]")
      (fun t => if t = "[1]" then some (.arr [.num 1]) else none) =
      .ok (.arr [.num 1]) :=
  ⟨⟨rfl, rfl, by decide⟩,
    C8_short_array_kept goodSecrets ⟨"openai", "gpt-4-turbo-preview"⟩ "[1]"
      (fun t => if t = "[1]" then some (.arr [.num 1]) else none)
      [.num 1] rfl rfl (by decide)⟩

/-! ### C6 -/

/-- C6: once the provider has constructed, a failure of any step inside the
`try` of `find_competitors` — the search-query LLM call, the web search,
the competitor-extraction LLM call, or the JSON parse of its output — is
caught: the function shows a user-facing error and returns the empty list;
and no exception ever escapes the `try` block. -/
theorem C6_try_block (s : Secrets) (p : AIProvider)
    (hinit : AIProvider.init s = .ok p) (q : Except PyErr String)
    (w : Except PyErr Unit) (a : Except PyErr String)
    (loads : String → Option Json) :
    (∀ e, q = .error e →
      find_competitors s q w a loads = .ok (.arr [], true)) ∧
    (∀ e, w = .error e →
      find_competitors s q w a loads = .ok (.arr [], true)) ∧
    (∀ e, a = .error e →
      find_competitors s q w a loads = .ok (.arr [], true)) ∧
    (∀ resp, a = .ok resp → loads (trimBrackets resp) = none →
      find_competitors s q w a loads = .ok (.arr [], true)) ∧
    (∃ r, find_competitors s q w a loads = .ok r) := by
  refine ⟨?_, ?_, ?_, ?_, ?_⟩
  · intro e he; subst he
    simp [find_competitors, hinit]
  · intro e he; subst he
    rcases q with e' | q' <;> simp [find_competitors, hinit]
  · intro e he; subst he
    rcases q with e' | q' <;> rcases w with e'' | ⟨⟩ <;>
      simp [find_competitors, hinit]
  · intro resp he hl; subst he
    rcases q with e' | q' <;> rcases w with e'' | ⟨⟩ <;>
      simp [find_competitors, hinit, hl]
  · simp only [find_competitors, hinit]
    exact ⟨_, rfl⟩

/-- C6, witness: a failing search-query LLM call at concrete inputs. -/
theorem C6_witness :
    (AIProvider.init goodSecrets = .ok ⟨"openai", "gpt-4-turbo-preview"⟩ ∧
      (Except.error .typeError : Except PyErr String) =
        .error PyErr.typeError) ∧
    find_competitors goodSecrets (.error .typeError) (.ok ()) (.ok "[]")
      (fun _ => none) = .ok (.arr [], true) :=
  ⟨⟨rfl, rfl⟩,
    (C6_try_block goodSecrets ⟨"openai", "gpt-4-turbo-preview"⟩ rfl
      (.error .typeError) (.ok ()) (.ok "[]") (fun _ => none)).1
      PyErr.typeError rfl⟩

/-! ### C4 -/

/-- `comp[k]` succeeds exactly on the key's stored value when the key is
present. -/
theorem dictGetItem_of_isSome {c : Json} {k : String}
    (h : (jLookup c k).isSome = true) :
    dictGetItem c k = .ok ((jLookup c k).getD .null) := by
  cases c with
  | obj kvs =>
    rcases hv : kvs.lookup k with _ | v
    · simp [jLookup, hv] at h
    · simp [dictGetItem, jLookup, hv]
  | null => simp [jLookup] at h
  | bool b => simp [jLookup] at h
  | num n => simp [jLookup] at h
  | str t => simp [jLookup] at h
  | arr xs => simp [jLookup] at h

/-- A competitor with the four keys yields its expected row. -/
theorem compRow_of_keys {c : Json} (ind : String) (h : hasCompKeys c) :
    compRow ind c = .ok (rowOf ind c) := by
  obtain ⟨h1, h2, h3, h4⟩ := h
  simp only [compRow, rowOf, dictGetItem_of_isSome h1,
    dictGetItem_of_isSome h2, dictGetItem_of_isSome h3,
    dictGetItem_of_isSome h4]
  rfl

/-- `mapM` over `Except` collects pointwise-successful results. -/
theorem mapM_eq_map {α β : Type} {f : α → Except PyErr β} {g : α → β}
    {l : List α} (h : ∀ x ∈ l, f x = .ok (g x)) :
    l.mapM f = .ok (l.map g) := by
  induction l with
  | nil => rfl
  | cons x xs ih =>
    rw [List.mapM_cons, h x (by simp), ih (fun y hy => h y (by simp [hy]))]
    rfl

/-- C4: on a non-empty session mapping whose competitor dicts all carry the
four keys, the exported CSV is exactly the fixed 5-column header
`Industry, Competitor, Website, Description, Key Differentiator` followed
by one row per (industry, competitor) pair in the mapping's iteration
order, each row holding that competitor's name, website, description and
differentiator under its industry. -/
theorem C4_csv_rows (m : List (String × List Json)) (hne : m ≠ [])
    (hkeys : ∀ p ∈ m, ∀ c ∈ p.2, hasCompKeys c) :
    export_results m = some (.ok (csvHeaders ::
      (m.map (fun p => p.2.map (rowOf p.1))).flatten)) := by
  have hb : buildCsvData m =
      .ok ((m.map (fun p => p.2.map (rowOf p.1))).flatten) := by
    unfold buildCsvData
    rw [mapM_eq_map (fun p hp =>
      mapM_eq_map (fun c hc => compRow_of_keys p.1 (hkeys p hp c hc)))]
    rfl
  unfold export_results
  rw [if_neg (by simpa using hne)]
  rw [hb]
  rfl

/-- C4, witness at a concrete one-entry session. -/
theorem C4_witness :
    (sampleSession ≠ [] ∧
      ∀ p ∈ sampleSession, ∀ c ∈ p.2, hasCompKeys c) ∧
    export_results sampleSession = some (.ok (csvHeaders ::
      (sampleSession.map (fun p => p.2.map (rowOf p.1))).flatten)) :=
  ⟨⟨by simp [sampleSession], by decide⟩,
    C4_csv_rows sampleSession (by simp [sampleSession]) (by decide)⟩

/-! ### C9 -/

/-- C9: `find_competitors` validates no field of the parsed competitors —
with the extraction LLM returning `[{}]` it happily returns a competitor
dict with no keys at all — and `export_results` then raises `KeyError`
(`comp['name']`) on that dict instead of producing a row. -/
theorem C9_missing_key_raises :
    find_competitors goodSecrets (.ok "query") (.ok ()) (.ok "[{}]")
      (fun t => if t = "[{}]" then some (.arr [.obj []]) else none) =
      .ok (.arr [.obj []], false) ∧
    export_results [("Industry A", [.obj []])] =
      some (.error (.keyError "name")) :=
  ⟨rfl, rfl⟩

/-! ### C7 -/

/-- C7 (spec-modelled): the five-band sentiment bucketing maps 0.6 to
"Very Positive", 0.1 to "Positive", 0.0 to "Neutral", -0.3 to "Negative"
and -0.7 to "Very Negative". -/
theorem C7_sentiment_bands :
    sentimentLabel (6/10) = "Very Positive" ∧
    sentimentLabel (1/10) = "Positive" ∧
    sentimentLabel 0 = "Neutral" ∧
    sentimentLabel (-3/10) = "Negative" ∧
    sentimentLabel (-7/10) = "Very Negative" := by
  refine ⟨?_, ?_, ?_, ?_, ?_⟩ <;> norm_num [sentimentLabel]

end CompetitorAnalysis
